import Mathlib

/-!
Verification of the glview-kit rendering-tester wrapper.

This file gives a shallow embedding of `src/RenderingTester.cpp` (the
`RenderTest` namespace: configuration records, the XML configuration
serializer, the dynamic library binding and the single/multi test runners)
and of the display-mode search helper `GetDisplayMode` of the original
duplicate implementation (`oevTest.cpp`), together with theorems checking
the specification's claims against these definitions.

Modelling conventions:
  * The external library `infogl.dll` (load success, symbol resolution,
    `oevInitWad` status, `oevRunRenderingTests` output) and the Windows
    display-mode table consulted by `EnumDisplaySettings` are opaque
    collaborators; they are modelled by an explicit environment record
    `LibEnv` and a list of `(width, height)` pairs.
  * The C++ `float`/`double` FPS figure is only ever copied, never
    computed with, so its carrier is an arbitrary type parameter `F`.
  * The macro `WGLDIAG_OPTIONS_FS_EX` is referenced by the sources but its
    definition is absent from the repository (it is not in `oevSDK.h`), so
    its value is an arbitrary `Nat` parameter `fsEx` throughout.
  * Mutable object state (`m_initialized`, `m_lastError`, paths) is passed
    explicitly as a `TesterState`.
-/

set_option maxRecDepth 40000

namespace RenderTest

/-- Supported rendering APIs, in the declaration order of the C++
`enum class RendererType` (so `toCode` below is `static_cast<int>`). -/
inductive RendererType where
  | GDI
  | OpenGL_2_0
  | OpenGL_3_0
  | OpenGL_3_1
  | OpenGL_3_2
  | OpenGL_3_3
  | OpenGL_4_0
  | OpenGL_4_1
  | OpenGL_4_2
  | OpenGL_4_3
  | OpenGL_4_4
  | OpenGL_4_5
  | OpenGL_4_6
  | Vulkan_1_0
  | Vulkan_1_1
  | Vulkan_1_2
deriving DecidableEq

/-- The `static_cast<int>` value of a `RendererType`. -/
def RendererType.toCode : RendererType → Int
  | .GDI => 0
  | .OpenGL_2_0 => 1
  | .OpenGL_3_0 => 2
  | .OpenGL_3_1 => 3
  | .OpenGL_3_2 => 4
  | .OpenGL_3_3 => 5
  | .OpenGL_4_0 => 6
  | .OpenGL_4_1 => 7
  | .OpenGL_4_2 => 8
  | .OpenGL_4_3 => 9
  | .OpenGL_4_4 => 10
  | .OpenGL_4_5 => 11
  | .OpenGL_4_6 => 12
  | .Vulkan_1_0 => 13
  | .Vulkan_1_1 => 14
  | .Vulkan_1_2 => 15

/-- Available test scenes (`enum class SceneType`). -/
inductive SceneType where
  | SingleCube
  | ManyCubes
  | Character
  | ManyCharacters
  | Raytracing
deriving DecidableEq

/-- The `static_cast<int>` value of a `SceneType`. -/
def SceneType.toCode : SceneType → Int
  | .SingleCube => 0
  | .ManyCubes => 1
  | .Character => 2
  | .ManyCharacters => 3
  | .Raytracing => 4

/-- Framebuffer formats (`enum class FramebufferFormat`). -/
inductive FramebufferFormat where
  | RGB_Linear
  | sRGB
  | HDR
deriving DecidableEq

/-- Framebuffer types (`enum class FramebufferType`). -/
inductive FramebufferType where
  | Default
  | PixelBuffer
  | FramebufferObject
deriving DecidableEq

/-- The `struct TestConfig`, with its C++ member initializers as defaults. -/
structure TestConfig where
  renderer : RendererType := RendererType.OpenGL_4_6
  fullscreen : Bool := false
  width : Int := 1920
  height : Int := 1080
  vsync : Bool := false
  fog : Bool := false
  transparency : Bool := false
  userClipPlane : Bool := false
  multisampleCount : Int := 0
  maxAnisotropy : Int := 0
  textureLOD : Int := 0
  fbFormat : FramebufferFormat := FramebufferFormat.RGB_Linear
  fbType : FramebufferType := FramebufferType.Default
  scene : SceneType := SceneType.SingleCube
  testDurationSeconds : Int := 10
  enableDebugOutput : Bool := false
  pixelFormat : Int := 1
deriving DecidableEq

/-- The `struct TestResult`; `F` is the carrier of the (copied-only) FPS
figure, standing for the C++ `double`. -/
structure TestResult (F : Type) where
  testIndex : Int
  passed : Bool
  averageFPS : F
  errorMessage : String
deriving DecidableEq

/-- The default-constructed `TestResult()` (`testIndex = 0`,
`passed = false`, `averageFPS = 0.0`, empty message); `default : F`
stands for the `0.0` initializer. -/
def defaultTestResult {F : Type} [Inhabited F] : TestResult F :=
  { testIndex := 0, passed := false, averageFPS := default, errorMessage := "" }

/-- The `struct gvRenderingTestResult` from `oevSDK.h`.  The `result` C string
may be a null pointer, hence `Option String`.  The `next` link of the
returned list is never read by `RunSingleTest` and is omitted. -/
structure GvRenderingTestResult (F : Type) where
  structSize : Int
  index : Int
  duration : Int
  fps : F
  result : Option String
deriving DecidableEq

/- Option bit constants from `oevSDK.h` (only those used by
`BuildXMLConfiguration`). -/

def WGLDIAG_OPTION_FOG : Nat := 1 <<< 5
def WGLDIAG_OPTION_CLIP_PLANE : Nat := 1 <<< 10
def WGLDIAG_OPTION_FS : Nat := 1 <<< 11
def WGLDIAG_OPTION_VSYNC : Nat := 1 <<< 12
def WGLDIAG_OPTION_TRANSPARENCY : Nat := 1 <<< 13
def WGLDIAG_OPTION_DEBUG : Nat := 1 <<< 20

/-- Helper `RenderingTester::CreateXMLElement`. -/
def CreateXMLElement (name value : String) : String :=
  "<" ++ name ++ (">") ++ value ++ ("</") ++ name ++ (">\n")

/-- The options bitmask built at the top of
`RenderingTester::BuildXMLConfiguration` (the sequence of
`options |= ...` statements).  `fsEx` is the undefined macro
`WGLDIAG_OPTIONS_FS_EX`. -/
def buildOptions (fsEx : Nat) (config : TestConfig) : Nat :=
  let options : Nat := 0
  let options := if config.fullscreen then options ||| (WGLDIAG_OPTION_FS ||| fsEx) else options
  let options := if config.enableDebugOutput then options ||| WGLDIAG_OPTION_DEBUG else options
  let options := if config.vsync then options ||| WGLDIAG_OPTION_VSYNC else options
  let options := if config.fog then options ||| WGLDIAG_OPTION_FOG else options
  let options := if config.transparency then options ||| WGLDIAG_OPTION_TRANSPARENCY else options
  let options := if config.userClipPlane then options ||| WGLDIAG_OPTION_CLIP_PLANE else options
  options

/-- Helper `RenderingTester::GetTestVersionString`. -/
def GetTestVersionString : RendererType → String
  | .GDI => "2.0"
  | .OpenGL_2_0 => "2.0"
  | .OpenGL_3_0 => "3.0"
  | .OpenGL_3_1 => "3.1"
  | .OpenGL_3_2 => "3.2"
  | .OpenGL_3_3 => "3.3"
  | .OpenGL_4_0 => "4.0"
  | .OpenGL_4_1 => "4.1"
  | .OpenGL_4_2 => "4.2"
  | .OpenGL_4_3 => "4.3"
  | .OpenGL_4_4 => "4.4"
  | .OpenGL_4_5 => "4.5"
  | .OpenGL_4_6 => "4.6"
  | .Vulkan_1_0 => "1.0"
  | .Vulkan_1_1 => "1.0"
  | .Vulkan_1_2 => "1.0"

/-- Helper `RenderingTester::FramebufferFormatToString`. -/
def FramebufferFormatToString : FramebufferFormat → String
  | .RGB_Linear => "Linear"
  | .sRGB => "sRGB"
  | .HDR => "HDR"

/-- Helper `RenderingTester::FramebufferTypeToString`. -/
def FramebufferTypeToString : FramebufferType → String
  | .Default => "Default"
  | .PixelBuffer => "PixelBuffer"
  | .FramebufferObject => "FrameBufferObject"

/-- Loop body of `Utils::FindDisplayMode`: `modeIndex` counts up while
`EnumDisplaySettings` (the `modes` list) keeps succeeding. -/
def findDisplayModeAux (width height : Int) : Nat → List (Int × Int) → Int
  | _, [] => -1
  | modeIndex, dm :: rest =>
    if width = dm.1 ∧ height = dm.2 then (modeIndex : Int)
    else findDisplayModeAux width height (modeIndex + 1) rest

/-- Function `Utils::FindDisplayMode`, over an explicit display-mode table
(the pairs `(dmPelsWidth, dmPelsHeight)` that `EnumDisplaySettings`
would report for indices `0, 1, ...`). -/
def FindDisplayMode (modes : List (Int × Int)) (width height : Int) : Int :=
  findDisplayModeAux width height 0 modes

/-- Serializer `RenderingTester::BuildXMLConfiguration`: the 14 elements in source
order, wrapped in a `root` element. -/
def BuildXMLConfiguration (modes : List (Int × Int)) (fsEx : Nat) (config : TestConfig) : String :=
  let options := buildOptions fsEx config
  let rendererValue : Int := config.renderer.toCode
  let sceneValue : String := toString config.scene.toCode
  let fbFormatStr := FramebufferFormatToString config.fbFormat
  let fbTypeStr := FramebufferTypeToString config.fbType
  let testVersion := GetTestVersionString config.renderer
  let xml :=
    CreateXMLElement ("option") (toString options) ++
    (CreateXMLElement ("duration") (toString config.testDurationSeconds) ++
    (CreateXMLElement ("multisample") (toString config.multisampleCount) ++
    (CreateXMLElement ("anisotropy") (toString config.maxAnisotropy) ++
    (CreateXMLElement ("texturelod") (toString config.textureLOD) ++
    (CreateXMLElement ("displaymode") (toString (FindDisplayMode modes config.width config.height)) ++
    (CreateXMLElement ("renderer") (toString rendererValue) ++
    (CreateXMLElement ("pixelformat") (toString config.pixelFormat) ++
    (CreateXMLElement ("test") testVersion ++
    (CreateXMLElement ("fbenable") fbTypeStr ++
    (CreateXMLElement ("fbformat") fbFormatStr ++
    (CreateXMLElement ("scene") sceneValue ++
    (CreateXMLElement ("width") (toString config.width) ++
    CreateXMLElement ("height") (toString config.height)))))))))))))
  CreateXMLElement ("root") xml

/-- Observable behaviour of the external library and of the display-mode
environment, fixed for the lifetime of a tester. -/
structure LibEnv (F : Type) where
  /-- Whether `LoadLibraryA` on the `infogl.dll` path succeeds. -/
  loadLibraryOk : Bool
  /-- Whether `GetProcAddress` resolves `oevInitWad`. -/
  hasInitWad : Bool
  /-- Whether `GetProcAddress` resolves `oevReadCpuid`. -/
  hasReadCpuid : Bool
  /-- Whether `GetProcAddress` resolves `oevRunRenderingTests`. -/
  hasRunRenderingTests : Bool
  /-- Return value of `oevInitWad(resourcePath)`. -/
  initWadResult : Int
  /-- Behaviour of `oevRunRenderingTests`: XML payload to returned record (null = `none`). -/
  runRenderingTests : String → Option (GvRenderingTestResult F)
  /-- Display-mode table consulted by `EnumDisplaySettings`. -/
  displayModes : List (Int × Int)

/-- The mutable state of a `RenderingTester` object. -/
structure TesterState where
  dllPath : String
  resourcePath : String
  lastError : String
  initialized : Bool
deriving DecidableEq

/-- The `RenderingTester` constructor: `m_resourcePath` defaults to
`GLVIEW.RMX` when the argument is empty, `m_initialized` starts false. -/
def mkRenderingTester (dllPath resourcePath : String) : TesterState :=
  { dllPath := dllPath
    resourcePath := if resourcePath = "" then "GLVIEW.RMX" else resourcePath
    lastError := ""
    initialized := false }

/-- Accessor `RenderingTester::GetLastError`. -/
def GetLastError (s : TesterState) : String := s.lastError

/-- Mutator `RenderingTester::SetLastError` (the logging call has no state). -/
def SetLastErrorS (s : TesterState) (error : String) : TesterState :=
  { s with lastError := error }

/-- Binding `RenderingTester::Impl::LoadDLL`: false when the library fails to
load, otherwise true exactly when all three entry points resolve. -/
def LoadDLL {F : Type} (env : LibEnv F) : Bool :=
  if env.loadLibraryOk then
    env.hasInitWad && env.hasReadCpuid && env.hasRunRenderingTests
  else
    false

/-- Method `RenderingTester::Initialize` (the DPI-awareness call has no
observable state in this model). -/
def Initialize {F : Type} (env : LibEnv F) (s : TesterState) : Bool × TesterState :=
  if s.initialized then (true, s)
  else
    if LoadDLL env then
      if env.initWadResult < 0 then
        (false, SetLastErrorS s ("Failed to initialize resource package: " ++ s.resourcePath))
      else (true, { s with initialized := true })
    else (false, SetLastErrorS s ("Failed to load infogl.dll or required functions"))

/-- Lines 135-163 of `RunSingleTest`: serialize the configuration, call
`oevRunRenderingTests` and translate the returned record.  This part
reads no tester state. -/
def runTestCore {F : Type} [Inhabited F] (env : LibEnv F) (fsEx : Nat)
    (config : TestConfig) : TestResult F :=
  let xmlConfig := BuildXMLConfiguration env.displayModes fsEx config
  match env.runRenderingTests xmlConfig with
  | some testResults =>
    match testResults.result with
    | some res =>
      if res = "OK" then
        { (defaultTestResult : TestResult F) with
            passed := true, averageFPS := testResults.fps, testIndex := testResults.index }
      else
        { (defaultTestResult : TestResult F) with
            passed := false, errorMessage := res, testIndex := testResults.index }
    | none => { (defaultTestResult : TestResult F) with errorMessage := "No test results returned" }
  | none => { (defaultTestResult : TestResult F) with errorMessage := "No test results returned" }

/-- Method `RenderingTester::RunSingleTest`. -/
def RunSingleTest {F : Type} [Inhabited F] (env : LibEnv F) (fsEx : Nat)
    (s : TesterState) (config : TestConfig) : TestResult F × TesterState :=
  if s.initialized then (runTestCore env fsEx config, s)
  else
    let ini := Initialize env s
    if ini.1 then (runTestCore env fsEx config, ini.2)
    else ({ defaultTestResult with errorMessage := GetLastError ini.2 }, ini.2)

/-- Loop body of `RenderingTester::RunMultipleTests`.  Besides the result
vector it returns the trace of progress-callback invocations, each entry
being the `(completed, total, result)` arguments of one call to a
non-null `progressCallback`. -/
def runMultipleAux {F : Type} [Inhabited F] (env : LibEnv F) (fsEx : Nat) (total : Nat) :
    TesterState → List TestConfig → Nat →
      List (TestResult F) × List (Nat × Nat × TestResult F) × TesterState
  | s, [], _ => ([], [], s)
  | s, config :: rest, i =>
    let p := RunSingleTest env fsEx s config
    let q := runMultipleAux env fsEx total p.2 rest (i + 1)
    (p.1 :: q.1, (i + 1, total, p.1) :: q.2.1, q.2.2)

/-- Method `RenderingTester::RunMultipleTests`. -/
def RunMultipleTests {F : Type} [Inhabited F] (env : LibEnv F) (fsEx : Nat)
    (s : TesterState) (configs : List TestConfig) :
    List (TestResult F) × List (Nat × Nat × TestResult F) × TesterState :=
  runMultipleAux env fsEx configs.length s configs 0

/-!
Small-step semantics of `GetDisplayMode` from the original duplicate
implementation (`oevTest.cpp`): an outer `for (;;)` wraps the
`while (EnumDisplaySettings(...))` enumeration loop, and `n` is not reset
when the inner loop exits.
-/

/-- Control state of `GetDisplayMode`: still looping with counter `n`, or
the function returned `v`. -/
inductive GDMState where
  | running (n : Nat)
  | returned (v : Int)
deriving DecidableEq

/-- One iteration of the old `GetDisplayMode` loops: if
`EnumDisplaySettings` succeeds at `n` the inner loop tests the mode and
either returns `n` or increments; if it fails, the inner loop exits and
the outer `for (;;)` re-enters it with `n` unchanged. -/
def gdmStep (modes : List (Int × Int)) (width height : Int) : GDMState → GDMState
  | .running n =>
    match modes[n]? with
    | some dm =>
      if width = dm.1 ∧ height = dm.2 then .returned (n : Int) else .running (n + 1)
    | none => .running n
  | .returned v => .returned v

/-- The state of the old `GetDisplayMode` after `k` iterations, from the
entry state `n = 0`. -/
def gdmIter (modes : List (Int × Int)) (width height : Int) : Nat → GDMState
  | 0 => .running 0
  | k + 1 => gdmStep modes width height (gdmIter modes width height k)

/-- Substring relation used to state which fragments the serialized XML
document contains. -/
def StrContains (hay sub : String) : Prop :=
  ∃ a b : String, hay = a ++ sub ++ b

/-!
Specification-side serializer, transcribed from spec §4.1/§8: the option
bitmask is the bitwise OR of exactly the bit constants of the enabled
boolean flags, and the document is the fixed element sequence
option, duration, multisample, anisotropy, texturelod, displaymode,
renderer, pixelformat, test, fbenable, fbformat, scene, width, height,
each value the stringified integer field except the test-version and
framebuffer strings, wrapped in a root element.
-/

/-- Option bitmask as the spec words it: the bitwise OR of exactly the
bits of the enabled flags, each disabled flag contributing nothing. -/
def SpecOptionMask (fsEx : Nat) (config : TestConfig) : Nat :=
  (if config.fullscreen then WGLDIAG_OPTION_FS ||| fsEx else 0) |||
  (if config.enableDebugOutput then WGLDIAG_OPTION_DEBUG else 0) |||
  (if config.vsync then WGLDIAG_OPTION_VSYNC else 0) |||
  (if config.fog then WGLDIAG_OPTION_FOG else 0) |||
  (if config.transparency then WGLDIAG_OPTION_TRANSPARENCY else 0) |||
  (if config.userClipPlane then WGLDIAG_OPTION_CLIP_PLANE else 0)

/-- The serialized document as the spec describes it (element order and
value kinds from §4.1). -/
def SpecSerializedXML (modes : List (Int × Int)) (fsEx : Nat) (config : TestConfig) : String :=
  CreateXMLElement ("root")
    (CreateXMLElement ("option") (toString (SpecOptionMask fsEx config)) ++
    (CreateXMLElement ("duration") (toString config.testDurationSeconds) ++
    (CreateXMLElement ("multisample") (toString config.multisampleCount) ++
    (CreateXMLElement ("anisotropy") (toString config.maxAnisotropy) ++
    (CreateXMLElement ("texturelod") (toString config.textureLOD) ++
    (CreateXMLElement ("displaymode") (toString (FindDisplayMode modes config.width config.height)) ++
    (CreateXMLElement ("renderer") (toString config.renderer.toCode) ++
    (CreateXMLElement ("pixelformat") (toString config.pixelFormat) ++
    (CreateXMLElement ("test") (GetTestVersionString config.renderer) ++
    (CreateXMLElement ("fbenable") (FramebufferTypeToString config.fbType) ++
    (CreateXMLElement ("fbformat") (FramebufferFormatToString config.fbFormat) ++
    (CreateXMLElement ("scene") (toString config.scene.toCode) ++
    (CreateXMLElement ("width") (toString config.width) ++
    CreateXMLElement ("height") (toString config.height))))))))))))))

/-!
Concrete fixtures used to instantiate the theorems below at executable
inputs (`F := Int`).
-/

/-- A record as `oevRunRenderingTests` could return it on success. -/
def sampleRecordOK : GvRenderingTestResult Int :=
  { structSize := 40, index := 3, duration := 5, fps := 60, result := some ("OK") }

/-- A library environment that loads, resolves every entry point, accepts
the resource package and answers every payload with `r`. -/
def sampleEnv (r : Option (GvRenderingTestResult Int)) : LibEnv Int :=
  { loadLibraryOk := true, hasInitWad := true, hasReadCpuid := true,
    hasRunRenderingTests := true, initWadResult := 0,
    runRenderingTests := fun _ => r,
    displayModes := [(640, 480), (1920, 1080)] }

/-- A library environment whose `oevReadCpuid` symbol is absent. -/
def sampleEnvMissingSymbol : LibEnv Int :=
  { loadLibraryOk := true, hasInitWad := true, hasReadCpuid := false,
    hasRunRenderingTests := true, initWadResult := 0,
    runRenderingTests := fun _ => none,
    displayModes := [] }

/-- A tester that has already been initialized successfully. -/
def sampleStateReady : TesterState :=
  { dllPath := "", resourcePath := "GLVIEW.RMX", lastError := "", initialized := true }

/-- A freshly constructed tester. -/
def sampleStateFresh : TesterState := mkRenderingTester ("") ("")

/-- The configuration of the spec's example scenario (claim C5): defaults
except renderer, scene, resolution and duration. -/
def exampleConfig : TestConfig :=
  { renderer := RendererType.OpenGL_4_6, scene := SceneType.SingleCube,
    width := 1920, height := 1080, testDurationSeconds := 5 }

/-! ### String toolkit -/

theorem strDataAppend (a b : String) : (a ++ b).data = a.data ++ b.data := rfl

theorem strContainsAppendRight (x : String) {hay sub : String} (hc : StrContains hay sub) :
    StrContains (x ++ hay) sub := by
  obtain ⟨a, b, rfl⟩ := hc
  exact ⟨x ++ a, b, by apply String.ext; simp only [strDataAppend, List.append_assoc]⟩

theorem strContainsAppendLeft (y : String) {hay sub : String} (hc : StrContains hay sub) :
    StrContains (hay ++ y) sub := by
  obtain ⟨a, b, rfl⟩ := hc
  exact ⟨a, b ++ y, by apply String.ext; simp only [strDataAppend, List.append_assoc]⟩

theorem strContainsCreateXML (name v sub : String) (hc : StrContains v sub) :
    StrContains (CreateXMLElement name v) sub := by
  obtain ⟨a, b, rfl⟩ := hc
  refine ⟨"<" ++ name ++ (">") ++ a, b ++ ("</") ++ name ++ (">\n"), ?_⟩
  apply String.ext
  simp only [CreateXMLElement, strDataAppend, List.append_assoc]

theorem strContainsXMLElement (name v : String) :
    StrContains (CreateXMLElement name v) ("<" ++ name ++ (">") ++ v ++ ("</" ++ name ++ (">"))) := by
  refine ⟨"", "\n", ?_⟩
  apply String.ext
  simp only [CreateXMLElement, strDataAppend, List.append_assoc]
  rfl

/-! ### Option bitmask -/

theorem buildOptions_eq_spec (fsEx : Nat) (config : TestConfig) :
    buildOptions fsEx config = SpecOptionMask fsEx config := by
  obtain ⟨ren, fs, w, h, vs, fog, tr, ucp, ms, ma, tl, ff, ft, sc, dur, dbg, pf⟩ := config
  cases fs <;> cases dbg <;> cases vs <;> cases fog <;> cases tr <;> cases ucp <;>
    simp [buildOptions, SpecOptionMask, Nat.zero_or, Nat.or_zero]

/-! ### Claims about the serializer -/

/-- Claim C4: for every TestConfig, `BuildXMLConfiguration` produces one
root element containing exactly the 14 elements option, duration,
multisample, anisotropy, texturelod, displaymode, renderer, pixelformat,
test, fbenable, fbformat, scene, width, height in that fixed order, every
value being the decimal string of the corresponding integer field passed
through without validation or clamping, except the test, fbenable and
fbformat elements whose values are the test-version and framebuffer
strings — i.e. the code serializer coincides with the serializer
transcribed from the spec, and (pass-through witness) the width element
carries `toString config.width` verbatim for every value of the field. -/
theorem C4_xml_document_refines_spec (modes : List (Int × Int)) (fsEx : Nat)
    (config : TestConfig) :
    BuildXMLConfiguration modes fsEx config = SpecSerializedXML modes fsEx config ∧
    StrContains (BuildXMLConfiguration modes fsEx config)
      ("<width>" ++ toString config.width ++ ("</width>")) := by
  constructor
  · simp only [BuildXMLConfiguration, SpecSerializedXML, buildOptions_eq_spec]
  · simp only [BuildXMLConfiguration]
    apply strContainsCreateXML
    apply strContainsAppendRight
    apply strContainsAppendRight
    apply strContainsAppendRight
    apply strContainsAppendRight
    apply strContainsAppendRight
    apply strContainsAppendRight
    apply strContainsAppendRight
    apply strContainsAppendRight
    apply strContainsAppendRight
    apply strContainsAppendRight
    apply strContainsAppendRight
    apply strContainsAppendRight
    apply strContainsAppendLeft
    exact strContainsXMLElement ("width") (toString config.width)

/-- Claim C3: for every TestConfig, the value of the option element in
the serialized XML equals the bitwise OR of exactly the bit constants of
the enabled boolean flags — fullscreen contributing
`WGLDIAG_OPTION_FS` (bit 11) together with the (undefined, hence
arbitrary) `WGLDIAG_OPTIONS_FS_EX` value `fsEx`, enableDebugOutput
bit 20, vsync bit 12, fog bit 5, transparency bit 13, userClipPlane
bit 10 — every disabled flag contributing nothing, and with all six flags
false the bitmask is 0. -/
theorem C3_option_bitmask (modes : List (Int × Int)) (fsEx : Nat) (config : TestConfig) :
    buildOptions fsEx config =
      ((if config.fullscreen then WGLDIAG_OPTION_FS ||| fsEx else 0) |||
       (if config.enableDebugOutput then WGLDIAG_OPTION_DEBUG else 0) |||
       (if config.vsync then WGLDIAG_OPTION_VSYNC else 0) |||
       (if config.fog then WGLDIAG_OPTION_FOG else 0) |||
       (if config.transparency then WGLDIAG_OPTION_TRANSPARENCY else 0) |||
       (if config.userClipPlane then WGLDIAG_OPTION_CLIP_PLANE else 0)) ∧
    StrContains (BuildXMLConfiguration modes fsEx config)
      ("<option>" ++ toString (buildOptions fsEx config) ++ ("</option>")) ∧
    WGLDIAG_OPTION_FS = 2 ^ 11 ∧ WGLDIAG_OPTION_DEBUG = 2 ^ 20 ∧
    WGLDIAG_OPTION_VSYNC = 2 ^ 12 ∧ WGLDIAG_OPTION_FOG = 2 ^ 5 ∧
    WGLDIAG_OPTION_TRANSPARENCY = 2 ^ 13 ∧ WGLDIAG_OPTION_CLIP_PLANE = 2 ^ 10 ∧
    (config.fullscreen = false → config.enableDebugOutput = false →
     config.vsync = false → config.fog = false → config.transparency = false →
     config.userClipPlane = false → buildOptions fsEx config = 0) := by
  refine ⟨buildOptions_eq_spec fsEx config, ?_, by decide, by decide, by decide, by decide,
    by decide, by decide, ?_⟩
  · simp only [BuildXMLConfiguration]
    apply strContainsCreateXML
    apply strContainsAppendLeft
    exact strContainsXMLElement ("option") (toString (buildOptions fsEx config))
  · intro h1 h2 h3 h4 h5 h6
    simp [buildOptions, h1, h2, h3, h4, h5, h6]

/-- Claim C3, witnessed at a concrete input: fog and vsync enabled yield
bitmask 4128, and the all-false default configuration yields 0. -/
theorem C3_option_bitmask_witness :
    buildOptions 0 { fog := true, vsync := true } = 4128 ∧
    buildOptions 0 ({}) = 0 := by
  have h := C3_option_bitmask [] 0 { fog := true, vsync := true }
  have h0 := C3_option_bitmask [] 0 ({})
  refine ⟨?_, h0.2.2.2.2.2.2.2.2 rfl rfl rfl rfl rfl rfl⟩
  rw [h.1]
  decide

/-- Claim C5: for the specific TestConfig with renderer OpenGL 4.6,
scene SingleCube, width 1920, height 1080, duration 5 and other fields
default, the serialized XML is a root element containing the substrings
`<renderer>12</renderer>`, `<scene>0</scene>`, `<width>1920</width>`,
`<height>1080</height>`, `<duration>5</duration>` and `<test>4.6</test>`,
for every display-mode environment and every `WGLDIAG_OPTIONS_FS_EX`
value. -/
theorem C5_example_serialization (modes : List (Int × Int)) (fsEx : Nat) :
    (∃ inner, BuildXMLConfiguration modes fsEx exampleConfig =
        "<root>" ++ inner ++ ("</root>\n")) ∧
    StrContains (BuildXMLConfiguration modes fsEx exampleConfig) ("<renderer>12</renderer>") ∧
    StrContains (BuildXMLConfiguration modes fsEx exampleConfig) ("<scene>0</scene>") ∧
    StrContains (BuildXMLConfiguration modes fsEx exampleConfig) ("<width>1920</width>") ∧
    StrContains (BuildXMLConfiguration modes fsEx exampleConfig) ("<height>1080</height>") ∧
    StrContains (BuildXMLConfiguration modes fsEx exampleConfig) ("<duration>5</duration>") ∧
    StrContains (BuildXMLConfiguration modes fsEx exampleConfig) ("<test>4.6</test>") := by
  refine ⟨⟨?_, ?_⟩, ?_, ?_, ?_, ?_, ?_, ?_⟩
  case refine_1 =>
    exact
      CreateXMLElement ("option") (toString (buildOptions fsEx exampleConfig)) ++
      (CreateXMLElement ("duration") (toString exampleConfig.testDurationSeconds) ++
      (CreateXMLElement ("multisample") (toString exampleConfig.multisampleCount) ++
      (CreateXMLElement ("anisotropy") (toString exampleConfig.maxAnisotropy) ++
      (CreateXMLElement ("texturelod") (toString exampleConfig.textureLOD) ++
      (CreateXMLElement ("displaymode")
        (toString (FindDisplayMode modes exampleConfig.width exampleConfig.height)) ++
      (CreateXMLElement ("renderer") (toString exampleConfig.renderer.toCode) ++
      (CreateXMLElement ("pixelformat") (toString exampleConfig.pixelFormat) ++
      (CreateXMLElement ("test") (GetTestVersionString exampleConfig.renderer) ++
      (CreateXMLElement ("fbenable") (FramebufferTypeToString exampleConfig.fbType) ++
      (CreateXMLElement ("fbformat") (FramebufferFormatToString exampleConfig.fbFormat) ++
      (CreateXMLElement ("scene") (toString exampleConfig.scene.toCode) ++
      (CreateXMLElement ("width") (toString exampleConfig.width) ++
      CreateXMLElement ("height") (toString exampleConfig.height)))))))))))))
  case refine_2 =>
    apply String.ext
    simp only [BuildXMLConfiguration, CreateXMLElement, strDataAppend, List.append_assoc]
    rfl
  case refine_3 =>
    simp only [BuildXMLConfiguration]
    apply strContainsCreateXML
    apply strContainsAppendRight
    apply strContainsAppendRight
    apply strContainsAppendRight
    apply strContainsAppendRight
    apply strContainsAppendRight
    apply strContainsAppendRight
    apply strContainsAppendLeft
    exact strContainsXMLElement ("renderer") ("12")
  case refine_4 =>
    simp only [BuildXMLConfiguration]
    apply strContainsCreateXML
    apply strContainsAppendRight
    apply strContainsAppendRight
    apply strContainsAppendRight
    apply strContainsAppendRight
    apply strContainsAppendRight
    apply strContainsAppendRight
    apply strContainsAppendRight
    apply strContainsAppendRight
    apply strContainsAppendRight
    apply strContainsAppendRight
    apply strContainsAppendRight
    apply strContainsAppendLeft
    exact strContainsXMLElement ("scene") ("0")
  case refine_5 =>
    simp only [BuildXMLConfiguration]
    apply strContainsCreateXML
    apply strContainsAppendRight
    apply strContainsAppendRight
    apply strContainsAppendRight
    apply strContainsAppendRight
    apply strContainsAppendRight
    apply strContainsAppendRight
    apply strContainsAppendRight
    apply strContainsAppendRight
    apply strContainsAppendRight
    apply strContainsAppendRight
    apply strContainsAppendRight
    apply strContainsAppendRight
    apply strContainsAppendLeft
    exact strContainsXMLElement ("width") ("1920")
  case refine_6 =>
    simp only [BuildXMLConfiguration]
    apply strContainsCreateXML
    apply strContainsAppendRight
    apply strContainsAppendRight
    apply strContainsAppendRight
    apply strContainsAppendRight
    apply strContainsAppendRight
    apply strContainsAppendRight
    apply strContainsAppendRight
    apply strContainsAppendRight
    apply strContainsAppendRight
    apply strContainsAppendRight
    apply strContainsAppendRight
    apply strContainsAppendRight
    apply strContainsAppendRight
    exact strContainsXMLElement ("height") ("1080")
  case refine_7 =>
    simp only [BuildXMLConfiguration]
    apply strContainsCreateXML
    apply strContainsAppendRight
    apply strContainsAppendLeft
    exact strContainsXMLElement ("duration") ("5")
  case refine_8 =>
    simp only [BuildXMLConfiguration]
    apply strContainsCreateXML
    apply strContainsAppendRight
    apply strContainsAppendRight
    apply strContainsAppendRight
    apply strContainsAppendRight
    apply strContainsAppendRight
    apply strContainsAppendRight
    apply strContainsAppendRight
    apply strContainsAppendRight
    apply strContainsAppendLeft
    exact strContainsXMLElement ("test") ("4.6")

/-- Claim C7: serialization is deterministic — identical TestConfig
values over the same display-mode environment produce byte-identical XML
strings. -/
theorem C7_serialization_deterministic (modes : List (Int × Int)) (fsEx : Nat)
    (c₁ c₂ : TestConfig) (h : c₁ = c₂) :
    BuildXMLConfiguration modes fsEx c₁ = BuildXMLConfiguration modes fsEx c₂ := by
  rw [h]

/-- Claim C7, witnessed at the example configuration. -/
theorem C7_serialization_deterministic_witness :
    BuildXMLConfiguration [(640, 480)] 0 exampleConfig =
      BuildXMLConfiguration [(640, 480)] 0 exampleConfig :=
  C7_serialization_deterministic [(640, 480)] 0 exampleConfig exampleConfig rfl

/-! ### Claims about library binding and the test runners -/

/-- Claim C6: the library binding returns true iff the library loads and
all three entry points `oevInitWad`, `oevReadCpuid`,
`oevRunRenderingTests` resolve; when it returns false on a
not-yet-initialized tester, `Initialize` returns false with the
last-error message set and the tester does not become initialized. -/
theorem C6_library_binding {F : Type} (env : LibEnv F) (s : TesterState) :
    (LoadDLL env = true ↔
      env.loadLibraryOk = true ∧ env.hasInitWad = true ∧
      env.hasReadCpuid = true ∧ env.hasRunRenderingTests = true) ∧
    (LoadDLL env = false → s.initialized = false →
      ( Initialize env s).1 = false ∧
      ( Initialize env s).2.lastError = "Failed to load infogl.dll or required functions" ∧
      ( Initialize env s).2.initialized = false) := by
  obtain ⟨dp, rp, le, ini⟩ := s
  constructor
  · cases henv : env.loadLibraryOk <;>
      simp [LoadDLL, henv, Bool.and_eq_true, and_assoc]
  · intro hL hI
    simp only at hI
    subst hI
    simp [Initialize, SetLastErrorS, hL]

/-- Claim C6, witnessed: with the `oevReadCpuid` symbol absent the
binding fails and `Initialize` fails with the load error message. -/
theorem C6_library_binding_witness :
    ( Initialize sampleEnvMissingSymbol sampleStateFresh).1 = false ∧
    ( Initialize sampleEnvMissingSymbol sampleStateFresh).2.lastError =
      "Failed to load infogl.dll or required functions" ∧
    ( Initialize sampleEnvMissingSymbol sampleStateFresh).2.initialized = false :=
  (C6_library_binding sampleEnvMissingSymbol sampleStateFresh).2 rfl rfl

/-- Claim C9: `Initialize` is idempotent after success — on an already
initialized tester it returns true and changes no state (in particular
the last-error string is unchanged and no external call is made). -/
theorem C9_initialize_idempotent {F : Type} (env : LibEnv F) (s : TesterState)
    (h : s.initialized = true) :
    Initialize env s = (true, s) := by
  simp [Initialize, h]

/-- Claim C9, witnessed on an initialized tester. -/
theorem C9_initialize_idempotent_witness :
    Initialize (sampleEnv (some sampleRecordOK)) sampleStateReady = (true, sampleStateReady) :=
  C9_initialize_idempotent (sampleEnv (some sampleRecordOK)) sampleStateReady rfl

/-- Claim C10: on an already-initialized tester, `RunSingleTest` leaves
the tester state — in particular the last-error string observed through
`GetLastError` — unchanged; per-test failures surface only in the
returned result. -/
theorem C10_run_single_test_preserves_last_error {F : Type} [Inhabited F]
    (env : LibEnv F) (fsEx : Nat) (s : TesterState) (config : TestConfig)
    (h : s.initialized = true) :
    (RunSingleTest env fsEx s config).2 = s ∧
    GetLastError (RunSingleTest env fsEx s config).2 = GetLastError s := by
  have h2 : (RunSingleTest env fsEx s config).2 = s := by
    simp [RunSingleTest, h]
  exact ⟨h2, by rw [h2]⟩

/-- Claim C10, witnessed on a failing test (null record returned). -/
theorem C10_run_single_test_preserves_last_error_witness :
    (RunSingleTest (sampleEnv none) 0 sampleStateReady ({})).2 = sampleStateReady ∧
    GetLastError (RunSingleTest (sampleEnv none) 0 sampleStateReady ({})).2 =
      GetLastError sampleStateReady :=
  C10_run_single_test_preserves_last_error (sampleEnv none) 0 sampleStateReady ({}) rfl

/-- Claim C1: on an initialized tester, `RunSingleTest` translates the
record returned by `oevRunRenderingTests` as follows — a null record or
a null status string yields `passed = false` with the error message
`No test results returned`; a status string other than `OK` yields
`passed = false` with that string as error message and the record's
index; status `OK` yields `passed = true` with fps and index copied
unchanged. -/
theorem C1_run_single_test_translates_record {F : Type} [Inhabited F]
    (env : LibEnv F) (fsEx : Nat) (s : TesterState) (config : TestConfig)
    (hInit : s.initialized = true) :
    (env.runRenderingTests (BuildXMLConfiguration env.displayModes fsEx config) = none →
      (RunSingleTest env fsEx s config).1.passed = false ∧
      (RunSingleTest env fsEx s config).1.errorMessage = "No test results returned") ∧
    (∀ r : GvRenderingTestResult F,
      env.runRenderingTests (BuildXMLConfiguration env.displayModes fsEx config) = some r →
      r.result = none →
      (RunSingleTest env fsEx s config).1.passed = false ∧
      (RunSingleTest env fsEx s config).1.errorMessage = "No test results returned") ∧
    (∀ (r : GvRenderingTestResult F) (msg : String),
      env.runRenderingTests (BuildXMLConfiguration env.displayModes fsEx config) = some r →
      r.result = some msg → msg ≠ "OK" →
      (RunSingleTest env fsEx s config).1.passed = false ∧
      (RunSingleTest env fsEx s config).1.errorMessage = msg ∧
      (RunSingleTest env fsEx s config).1.testIndex = r.index) ∧
    (∀ (r : GvRenderingTestResult F) (msg : String),
      env.runRenderingTests (BuildXMLConfiguration env.displayModes fsEx config) = some r →
      r.result = some msg → msg = "OK" →
      (RunSingleTest env fsEx s config).1.passed = true ∧
      (RunSingleTest env fsEx s config).1.averageFPS = r.fps ∧
      (RunSingleTest env fsEx s config).1.testIndex = r.index) := by
  have hrun : (RunSingleTest env fsEx s config).1 = runTestCore env fsEx config := by
    simp [RunSingleTest, hInit]
  refine ⟨?_, ?_, ?_, ?_⟩
  · intro hnone
    rw [hrun]
    simp [runTestCore, hnone, defaultTestResult]
  · intro r hsome hres
    rw [hrun]
    simp [runTestCore, hsome, hres, defaultTestResult]
  · intro r msg hsome hres hne
    rw [hrun]
    simp [runTestCore, hsome, hres, hne, defaultTestResult]
  · intro r msg hsome hres heq
    subst heq
    rw [hrun]
    simp [runTestCore, hsome, hres, defaultTestResult]

/-- Claim C1, witnessed on an `OK` record with fps 60 and index 3. -/
theorem C1_run_single_test_translates_record_witness :
    (RunSingleTest (sampleEnv (some sampleRecordOK)) 0 sampleStateReady ({})).1.passed = true ∧
    (RunSingleTest (sampleEnv (some sampleRecordOK)) 0 sampleStateReady ({})).1.averageFPS =
      sampleRecordOK.fps ∧
    (RunSingleTest (sampleEnv (some sampleRecordOK)) 0 sampleStateReady ({})).1.testIndex =
      sampleRecordOK.index :=
  (C1_run_single_test_translates_record (sampleEnv (some sampleRecordOK)) 0 sampleStateReady
    ({}) rfl).2.2.2 sampleRecordOK ("OK") rfl rfl rfl

/-- The first component of `RunSingleTest` does not depend on the state
updates a previous `RunSingleTest` may have made: initialization is
deterministic, so a batch member gets the same result it would get from
the batch's initial state. -/
theorem runSingleTest_fst_stable {F : Type} [Inhabited F] (env : LibEnv F) (fsEx : Nat)
    (s : TesterState) (c c' : TestConfig) :
    (RunSingleTest env fsEx (RunSingleTest env fsEx s c).2 c').1 =
      (RunSingleTest env fsEx s c').1 := by
  obtain ⟨dp, rp, le, ini⟩ := s
  cases ini
  · cases hL : LoadDLL env
    · simp [RunSingleTest, Initialize, SetLastErrorS, GetLastError, hL]
    · by_cases hW : env.initWadResult < 0
      · simp [RunSingleTest, Initialize, SetLastErrorS, GetLastError, hL, hW]
      · simp [RunSingleTest, Initialize, SetLastErrorS, GetLastError, hL, hW]
  · simp [RunSingleTest]

theorem runMultipleAux_spec {F : Type} [Inhabited F] (env : LibEnv F) (fsEx : Nat)
    (total : Nat) (configs : List TestConfig) :
    ∀ (s : TesterState) (i : Nat),
      (runMultipleAux env fsEx total s configs i).1 =
        configs.map (fun c => (RunSingleTest env fsEx s c).1) ∧
      (runMultipleAux env fsEx total s configs i).2.1 =
        List.zipWith (fun k r => (k, total, r)) (List.range' (i + 1) configs.length)
          (configs.map (fun c => (RunSingleTest env fsEx s c).1)) := by
  induction configs with
  | nil => intro s i; simp [runMultipleAux]
  | cons c rest ih =>
    intro s i
    obtain ⟨h1, h2⟩ := ih (RunSingleTest env fsEx s c).2 (i + 1)
    have hmap : rest.map (fun c' => (RunSingleTest env fsEx (RunSingleTest env fsEx s c).2 c').1) =
        rest.map (fun c' => (RunSingleTest env fsEx s c').1) :=
      List.map_congr_left (fun c' _ => runSingleTest_fst_stable env fsEx s c c')
    rw [hmap] at h1 h2
    constructor
    · simp only [runMultipleAux, List.map_cons, h1]
    · simp only [runMultipleAux, List.map_cons, List.length_cons, h2, h1,
        List.range'_succ, List.zipWith_cons_cons]

/-- Claim C2: `RunMultipleTests` on N configs returns exactly N results,
the i-th being the result `RunSingleTest` gives for the i-th config from
the batch's initial state (same order; a failed test does not abort the
batch), and invokes the progress callback exactly N times, the k-th
invocation receiving completed-count k (strictly increasing from 1 to
N), total-count N and the k-th result. -/
theorem C2_run_multiple_tests_sequences {F : Type} [Inhabited F] (env : LibEnv F)
    (fsEx : Nat) (s : TesterState) (configs : List TestConfig) :
    (RunMultipleTests env fsEx s configs).1.length = configs.length ∧
    (RunMultipleTests env fsEx s configs).1 =
      configs.map (fun c => (RunSingleTest env fsEx s c).1) ∧
    (RunMultipleTests env fsEx s configs).2.1.length = configs.length ∧
    (RunMultipleTests env fsEx s configs).2.1 =
      List.zipWith (fun k r => (k, configs.length, r)) (List.range' 1 configs.length)
        ((RunMultipleTests env fsEx s configs).1) := by
  obtain ⟨h1, h2⟩ := runMultipleAux_spec env fsEx configs.length configs s 0
  refine ⟨?_, ?_, ?_, ?_⟩
  · rw [RunMultipleTests, h1, List.length_map]
  · rw [RunMultipleTests, h1]
  · rw [RunMultipleTests, h2, List.length_zipWith, List.length_range', List.length_map,
      Nat.min_self]
  · rw [RunMultipleTests, h2, h1]

/-! ### Claim about the old `GetDisplayMode` helper -/

/-- When no enumerated mode matches, the old `GetDisplayMode` keeps
spinning: after `k` iterations it is still running with counter
`min k (length of the mode table)`. -/
theorem gdmIter_no_match {modes : List (Int × Int)} {w h : Int}
    (hno : ∀ dm ∈ modes, ¬(w = dm.1 ∧ h = dm.2)) :
    ∀ k, gdmIter modes w h k = GDMState.running (min k modes.length) := by
  intro k
  induction k with
  | zero => simp [gdmIter]
  | succ k ih =>
    rw [gdmIter, ih]
    cases hdm : modes[min k modes.length]? with
    | none =>
      simp only [gdmStep, hdm]
      have hlen : modes.length ≤ min k modes.length := by
        by_contra hcon
        push_neg at hcon
        exact absurd hdm (by simp [List.getElem?_eq_getElem hcon])
      have heq : min k modes.length = modes.length := Nat.le_antisymm (Nat.min_le_right k _) hlen
      have hk : modes.length ≤ k + 1 := by omega
      rw [heq, Nat.min_eq_right hk]
    | some dm =>
      simp only [gdmStep, hdm]
      have hmem : dm ∈ modes := by
        obtain ⟨hlt, hget⟩ := List.getElem?_eq_some.mp hdm
        exact hget ▸ List.getElem_mem hlt
      rw [if_neg (hno dm hmem)]
      have hlt : min k modes.length < modes.length := (List.getElem?_eq_some.mp hdm).1
      have hmk : min k modes.length = k := by omega
      have hmk1 : min (k + 1) modes.length = k + 1 := by omega
      rw [hmk, hmk1]

/-- Every value the old `GetDisplayMode` can return is the index of a
matching mode; in particular the trailing `return -1` is unreachable. -/
theorem gdmIter_returned {modes : List (Int × Int)} {w h : Int} :
    ∀ k v, gdmIter modes w h k = GDMState.returned v →
      ∃ n : Nat, v = (n : Int) ∧ ∃ dm, modes[n]? = some dm ∧ w = dm.1 ∧ h = dm.2 := by
  intro k
  induction k with
  | zero => intro v hv; exact absurd hv (by simp [gdmIter])
  | succ k ih =>
    intro v hv
    rw [gdmIter] at hv
    cases hstate : gdmIter modes w h k with
    | running n =>
      rw [hstate] at hv
      cases hdm : modes[n]? with
      | none =>
        simp only [gdmStep, hdm] at hv
        exact absurd hv (by simp)
      | some dm =>
        simp only [gdmStep, hdm] at hv
        by_cases hmatch : w = dm.1 ∧ h = dm.2
        · rw [if_pos hmatch] at hv
          injection hv with hveq
          exact ⟨n, hveq.symm, dm, hdm, hmatch⟩
        · rw [if_neg hmatch] at hv
          exact absurd hv (by simp)
    | returned v' =>
      rw [hstate] at hv
      simp only [gdmStep] at hv
      injection hv with hveq
      exact hveq ▸ ih v' hstate

/-- Claim C8: the original duplicate implementation's `GetDisplayMode`
wraps its enumeration loop in an outer infinite loop — for every
`(width, height)` pair matching no enumerated display mode the helper
never terminates (every iteration count leaves it in a running state);
whenever it does return, the value is the index of a matching mode and
never the unreachable `-1`; and when a matching mode exists it does
terminate, returning such an index. -/
theorem C8_old_display_mode_search_loops (modes : List (Int × Int)) (w h : Int) :
    ((∀ dm ∈ modes, ¬(w = dm.1 ∧ h = dm.2)) →
      ∀ k, ∃ n, gdmIter modes w h k = GDMState.running n) ∧
    (∀ k v, gdmIter modes w h k = GDMState.returned v →
      v ≠ -1 ∧ ∃ n : Nat, v = (n : Int) ∧
        ∃ dm, modes[n]? = some dm ∧ w = dm.1 ∧ h = dm.2) ∧
    ((∃ dm ∈ modes, w = dm.1 ∧ h = dm.2) →
      ∃ (k : Nat) (n : Nat), gdmIter modes w h k = GDMState.returned (n : Int) ∧
        ∃ dm, modes[n]? = some dm ∧ w = dm.1 ∧ h = dm.2) := by
  refine ⟨?_, ?_, ?_⟩
  · intro hno k
    exact ⟨min k modes.length, gdmIter_no_match hno k⟩
  · intro k v hv
    obtain ⟨n, hn, dm, hdm, hmatch⟩ := gdmIter_returned k v hv
    refine ⟨?_, n, hn, dm, hdm, hmatch⟩
    rw [hn]
    omega
  · intro hex
    have hP : ∃ n : Nat, ∃ dm, modes[n]? = some dm ∧ w = dm.1 ∧ h = dm.2 := by
      obtain ⟨dm, hmem, hmatch⟩ := hex
      obtain ⟨n, hlt, hget⟩ := List.getElem_of_mem hmem
      exact ⟨n, dm, by rw [List.getElem?_eq_getElem hlt, hget], hmatch⟩
    haveI : DecidablePred (fun n : Nat => ∃ dm, modes[n]? = some dm ∧ w = dm.1 ∧ h = dm.2) := by
      intro n
      cases hdm : modes[n]? with
      | none => exact isFalse (by simp [hdm])
      | some dm => exact decidable_of_iff (w = dm.1 ∧ h = dm.2) (by simp [hdm])
    obtain ⟨dm₀, hdm₀, hmatch₀⟩ := Nat.find_spec hP
    have hmin : ∀ m, m < Nat.find hP →
        ¬∃ dm, modes[m]? = some dm ∧ w = dm.1 ∧ h = dm.2 :=
      fun m hm => Nat.find_min hP hm
    have hlen : Nat.find hP < modes.length := (List.getElem?_eq_some.mp hdm₀).1
    have hrun : ∀ j, j ≤ Nat.find hP → gdmIter modes w h j = GDMState.running j := by
      intro j
      induction j with
      | zero => intro _; simp [gdmIter]
      | succ j ihj =>
        intro hj
        rw [gdmIter, ihj (by omega)]
        have hjlt : j < modes.length := by omega
        simp only [gdmStep, List.getElem?_eq_getElem hjlt]
        rw [if_neg ?_]
        intro hcon
        exact hmin j (by omega) ⟨modes[j], List.getElem?_eq_getElem hjlt, hcon⟩
    refine ⟨Nat.find hP + 1, Nat.find hP, ?_, dm₀, hdm₀, hmatch₀⟩
    rw [gdmIter, hrun (Nat.find hP) (Nat.le_refl _)]
    simp only [gdmStep, hdm₀]
    rw [if_pos hmatch₀]

/-- Claim C8, witnessed: on the table `[(640, 480), (1920, 1080)]` the
search for 1920×1080 terminates at index 1, while the search for 1×2
is still running after 25 iterations. -/
theorem C8_old_display_mode_search_loops_witness :
    (∃ (k : Nat) (n : Nat),
      gdmIter [(640, 480), (1920, 1080)] 1920 1080 k = GDMState.returned (n : Int) ∧
      ∃ dm, [((640 : Int), (480 : Int)), (1920, 1080)][n]? = some dm ∧
        (1920 : Int) = dm.1 ∧ (1080 : Int) = dm.2) ∧
    (∃ n, gdmIter [(640, 480), (1920, 1080)] 1 2 25 = GDMState.running n) := by
  constructor
  · exact (C8_old_display_mode_search_loops [(640, 480), (1920, 1080)] 1920 1080).2.2
      ⟨(1920, 1080), by decide, rfl, rfl⟩
  · exact (C8_old_display_mode_search_loops [(640, 480), (1920, 1080)] 1 2).1
      (by decide) 25

end RenderTest
